import Mathlib

/-!
Verification development for the `geotifftilesetmodel` repository.

The TypeScript sources are shallowly embedded: raw sample buffers become
`List ℤ` (typed-array element values), byte buffers become `List ℕ` with
JavaScript `Uint8Array` stores modelled as `% 256`, floating-point
normalisation arithmetic is carried out exactly over `ℚ`, and the
asynchronous tile read becomes an explicit `Except`-valued oracle with
state passing for the tile cache.
-/

/-! ### Gradient color mapping

`GrayscaleGradient` (src/gradients.ts) is a list of 16 stops with levels
0, 0.0667, 0.1333, …, 0.9333, 1 and gray colors 0x00, 0x11, …, 0xFF.
A stop is a (level, (r, g, b)) pair. -/

def grayscaleStops : List (ℚ × (ℕ × ℕ × ℕ)) :=
  [(0, (0, 0, 0)),
   (667/10000, (17, 17, 17)),
   (1333/10000, (34, 34, 34)),
   (2/10, (51, 51, 51)),
   (2667/10000, (68, 68, 68)),
   (3333/10000, (85, 85, 85)),
   (4/10, (102, 102, 102)),
   (4667/10000, (119, 119, 119)),
   (5333/10000, (136, 136, 136)),
   (6/10, (153, 153, 153)),
   (6667/10000, (170, 170, 170)),
   (7333/10000, (187, 187, 187)),
   (8/10, (204, 204, 204)),
   (8667/10000, (221, 221, 221)),
   (9333/10000, (238, 238, 238)),
   (1, (255, 255, 255))]

/-- Find the pair of consecutive stops `(a, b)` with `a.level ≤ n < b.level`. -/
def findSegment : List (ℚ × (ℕ × ℕ × ℕ)) → ℚ → Option ((ℚ × (ℕ × ℕ × ℕ)) × (ℚ × (ℕ × ℕ × ℕ)))
  | a :: b :: rest, n => if a.1 ≤ n ∧ n < b.1 then some (a, b) else findSegment (b :: rest) n
  | _, _ => none

/-- Round to the nearest integer, halves up (the behavior of `Math.round`). -/
def qRound (q : ℚ) : ℤ := ⌊q + 1/2⌋

/-- Linear interpolation of one color channel between two stops, rounded to the
nearest integer and clamped to [0, 255]. -/
def interpChannel (la lb : ℚ) (ca cb : ℕ) (n : ℚ) : ℕ :=
  let z := qRound ((ca : ℚ) + (n - la) / (lb - la) * ((cb : ℚ) - (ca : ℚ)))
  Int.toNat (if z < 0 then 0 else if 255 < z then 255 else z)

/-- Modelled from the spec: the value-to-color lookup of the external
`ColorMap.retrieveColor` collaborator (the `@luciad/ria` color map built by
`createGradientColorMap`), which is not part of this repository.  Following
section 4.2 of the specification, the input is clamped to [0, 0.999] and the
bracketing stops are interpolated linearly per channel. -/
def retrieveColor (stops : List (ℚ × (ℕ × ℕ × ℕ))) (nRaw : ℚ) : ℕ × ℕ × ℕ :=
  let n := if nRaw < 0 then 0 else if nRaw > 999/1000 then 999/1000 else nRaw
  match findSegment stops n with
  | some ((la, ca), (lb, cb)) =>
      (interpChannel la lb ca.1 cb.1 n,
       interpChannel la lb ca.2.1 cb.2.1 n,
       interpChannel la lb ca.2.2 cb.2.2 n)
  | none => (0, 0, 0)

/-- `TransformToGradientColorMap` (src/gradients.ts): optional native-range
normalisation (clamping below 0 to 0 and above 1 to 0.999) followed by the
color-map lookup. -/
def TransformToGradientColorMap (stops : List (ℚ × (ℕ × ℕ × ℕ)))
    (range : Option (ℚ × ℚ)) : ℚ → ℕ × ℕ × ℕ :=
  fun n =>
    let x := match range with
      | some (mn, mx) =>
        let normalizedValue := (n - mn) / (mx - mn)
        if normalizedValue < 0 then 0 else if normalizedValue > 1 then 999/1000 else normalizedValue
      | none => n
    retrieveColor stops x

/-- `GrayScaleTransformation` (src/gradients.ts): the grayscale gradient with no
native range. -/
def GrayScaleTransformation : ℚ → ℕ × ℕ × ℕ :=
  TransformToGradientColorMap grayscaleStops none

/-! ### Single-band conversion (src/bitstorgb.ts, native-range revision)

`ConvertTo8BitRGBOptions` carries the normalisation function, the optional
color transformation and the optional nodata sentinel.  The `convert` field is
optional in the TypeScript interface but every call site sets it, and
`convertTo8BitRGB` dereferences it unconditionally, so it is a plain field
here. -/

structure ConvertTo8BitRGBOptions where
  convert : ℚ → ℚ
  transformation : Option (ℚ → ℕ × ℕ × ℕ) := none
  nodata : Option ℤ := none

/-- `convertTo8BitRGB` (src/bitstorgb.ts): per sample, normalise, apply the
transformation (defaulting to `GrayScaleTransformation`), write 3 RGB bytes,
and — only when a nodata value is configured — a 4th alpha byte that is 0 when
the sample equals nodata and 255 otherwise. -/
def convertTo8BitRGB (oldRaw : List ℤ) (options : ConvertTo8BitRGBOptions) : List ℕ :=
  oldRaw.flatMap fun v =>
    let normalizedValue := options.convert (v : ℚ)
    let rgb := (options.transformation.getD GrayScaleTransformation) normalizedValue
    match options.nodata with
    | none => [rgb.1 % 256, rgb.2.1 % 256, rgb.2.2 % 256]
    | some nodata =>
        [rgb.1 % 256, rgb.2.1 % 256, rgb.2.2 % 256, if v = nodata then 0 else 255]

/-- Options of `convertSingleBandTo8BitRGB`; `nativeRange` is dereferenced
unconditionally by the source, so it is a plain field. -/
structure SingleBandOptions where
  transformation : Option (ℚ → ℕ × ℕ × ℕ) := none
  nodata : Option ℤ := none
  nativeRange : ℚ × ℚ

/-- `convertSingleBandTo8BitRGB` (src/bitstorgb.ts): builds the normalisation
`x ↦ (x − min) / (max − min)` from the native range and delegates to
`convertTo8BitRGB`. -/
def convertSingleBandTo8BitRGB (raw : List ℤ) (options : SingleBandOptions) : List ℕ :=
  convertTo8BitRGB raw
    { convert := fun x => (x - options.nativeRange.1) / (options.nativeRange.2 - options.nativeRange.1),
      transformation := options.transformation,
      nodata := options.nodata }

example : convertTo8BitRGB [5] { convert := fun x => x, nodata := some 5, transformation := some fun _ => (1, 2, 3) } = [1, 2, 3, 0] := by
  norm_num [convertTo8BitRGB]

example : GrayScaleTransformation 0 = (0, 0, 0) := by
  norm_num [GrayScaleTransformation, TransformToGradientColorMap, retrieveColor, grayscaleStops,
    findSegment, interpChannel, qRound, Int.toNat_ofNat]

example : GrayScaleTransformation 1 = (255, 255, 255) := by
  norm_num [GrayScaleTransformation, TransformToGradientColorMap, retrieveColor, grayscaleStops,
    findSegment, interpChannel, qRound]
  decide

/-! ### Multi-band conversion (src/bandstorgb.ts) -/

/-- `BandMapping` (src/bandstorgb.ts): which band feeds each output channel. -/
structure BandMapping where
  red : ℕ
  green : ℕ
  blue : ℕ
  gray : ℕ
  rgb : Bool

structure ConvertBandsTo8BitRGBOptions where
  bits : ℕ
  bands : ℕ
  bandMapping : BandMapping
  nodata : Option ℤ := none
  convert : ℚ → ℚ
  transformation : Option (ℚ → ℕ × ℕ × ℕ) := none

/-- JavaScript `ToUint8` as performed by a `Uint8Array` store: truncate the
fractional part toward zero, then wrap modulo 256. -/
def jsToUint8 (q : ℚ) : ℕ :=
  Int.toNat (Int.tdiv q.num (q.den : ℤ) % 256)

/-- `Math.ceil(a / b)` on naturals. -/
def ceilDiv (a b : ℕ) : ℕ := (a + b - 1) / b

/-- The `onUndefinedConvert` helper of src/bandstorgb.ts: an undefined band
value (out-of-range index) normalises to 0. -/
def onUndefinedConvert (o : ConvertBandsTo8BitRGBOptions) (v : Option ℤ) : ℚ :=
  match v with
  | some x => o.convert (x : ℚ)
  | none => 0

/-- `bandMapping` (src/bandstorgb.ts, the per-pixel function): with `rgb = true`
the three mapped band values are normalised directly, and alpha is 255 when at
least one of them differs from nodata (strict JS `!==`, where `undefined` only
equals `undefined`); with `rgb = false` the gray band is normalised, divided by
255 and passed through the transformation, and alpha is 0 exactly when the gray
value equals nodata. -/
def bandMapping (multibands : List ℤ) (o : ConvertBandsTo8BitRGBOptions) : ℚ × ℚ × ℚ × ℕ :=
  if o.bandMapping.rgb then
    let redValue := multibands.get? o.bandMapping.red
    let greenValue := multibands.get? o.bandMapping.green
    let blueValue := multibands.get? o.bandMapping.blue
    let alpha : ℕ :=
      if redValue ≠ o.nodata ∨ greenValue ≠ o.nodata ∨ blueValue ≠ o.nodata then 255 else 0
    (onUndefinedConvert o redValue, onUndefinedConvert o greenValue,
     onUndefinedConvert o blueValue, alpha)
  else
    let gray := multibands.get? o.bandMapping.gray
    let alpha : ℕ := if gray = o.nodata then 0 else 255
    let rgbTransformation := o.transformation.getD GrayScaleTransformation
    let x := onUndefinedConvert o gray / 255
    let rgb := rgbTransformation x
    ((rgb.1 : ℚ), (rgb.2.1 : ℚ), (rgb.2.2 : ℚ), alpha)

/-- `convertStandardizedBandsTo8BitRGB` (src/bandstorgb.ts): 3 output bytes per
pixel without a nodata value, 4 with one.  The JavaScript is modelled exactly,
including its non-integer arithmetic: `maxIndex = raw.length / bands` is a real
number, so the pixel loop runs `ceil(raw.length / bands)` times while the
`Uint8Array(maxIndex * bandsOut)` allocation truncates to
`floor(raw.length * bandsOut / bands)` bytes — out-of-range writes of the last
partial pixel are silently dropped (the outer `take`), and its out-of-range
band reads are `undefined`, which the reusable `multibands` typed array stores
as 0 (the `getD` default).  Band values wrap modulo `2 ^ bits` through
`multibands`.  Failure cases return `none`: for `bits` outside {8, 16, 32}
`multibands` is `undefined` and the first loop iteration throws a TypeError;
for `bands = 0` with a nonempty buffer `maxIndex` is `Infinity` and the loop
never terminates.  An empty buffer runs zero iterations and returns an empty
array regardless. -/
def convertStandardizedBandsTo8BitRGB (raw : List ℤ) (o : ConvertBandsTo8BitRGBOptions) :
    Option (List ℕ) :=
  let bandsOut := match o.nodata with | none => 3 | some _ => 4
  if raw.length = 0 then some []
  else if o.bands = 0 then none
  else if o.bits = 8 ∨ o.bits = 16 ∨ o.bits = 32 then
    let maxIndexCeil := ceilDiv raw.length o.bands
    let outLen := raw.length * bandsOut / o.bands
    some (((List.range maxIndexCeil).flatMap fun index =>
      let multibands := (List.range o.bands).map fun j =>
        raw.getD (index * o.bands + j) 0 % (2 ^ o.bits : ℤ)
      let rgba := bandMapping multibands o
      [jsToUint8 rgba.1, jsToUint8 rgba.2.1, jsToUint8 rgba.2.2.1,
        rgba.2.2.2 % 256].take bandsOut).take outLen)
  else none

/-- `convertBandsTo8BitRGB` (src/bandstorgb.ts): chooses the divider by bit
width (1 for 8 bits, 255 for 16, 255³ for 32) and delegates. -/
def convertBandsTo8BitRGB (raw : List ℤ) (o : ConvertBandsTo8BitRGBOptions) :
    Option (List ℕ) :=
  let divider : ℚ := if o.bits = 16 then 255 else if o.bits = 32 then 255 * 255 * 255 else 1
  convertStandardizedBandsTo8BitRGB raw { o with convert := fun x => x / divider }

example :
    convertBandsTo8BitRGB [10, 20, 30]
      { bits := 8, bands := 3, bandMapping := ⟨0, 1, 2, 0, true⟩, nodata := some 0,
        convert := fun x => x } = some [10, 20, 30, 255] := by
  norm_num [convertBandsTo8BitRGB, convertStandardizedBandsTo8BitRGB, bandMapping,
    onUndefinedConvert, jsToUint8, ceilDiv, List.range_succ]
  decide

/-! ### Helper lemmas -/

theorem length_flatMap_range_const {β : Type} (n k : ℕ) (f : ℕ → List β)
    (h : ∀ i, (f i).length = k) : ((List.range n).flatMap f).length = n * k := by
  induction n with
  | zero => simp
  | succ m ih =>
      rw [List.range_succ, List.flatMap_append, List.length_append, ih]
      simp [h m, Nat.succ_mul]

theorem convertTo8BitRGB_length (raw : List ℤ) (o : ConvertTo8BitRGBOptions) :
    (convertTo8BitRGB raw o).length = raw.length * (if o.nodata.isSome then 4 else 3) := by
  induction raw with
  | nil => simp [convertTo8BitRGB]
  | cons v t ih =>
      cases h : o.nodata <;>
        simp_all [convertTo8BitRGB, h, List.flatMap_cons] <;> omega

theorem take_flatMap_range_length {β : Type} (n k outLen : ℕ) (f : ℕ → List β)
    (h : ∀ i, (f i).length = k) (hout : outLen ≤ n * k) :
    (((List.range n).flatMap f).take outLen).length = outLen := by
  rw [List.length_take, length_flatMap_range_const n k f h]
  omega

theorem ceilDiv_of_dvd (len bands q : ℕ) (hbands : 0 < bands) (hq : len = bands * q) :
    ceilDiv len bands = q := by
  have h1 : len + bands - 1 = bands * q + (bands - 1) := by omega
  rw [ceilDiv, h1, Nat.mul_add_div hbands, Nat.div_eq_of_lt (by omega), Nat.add_zero]

theorem convertStandardizedBands_length (raw : List ℤ) (o : ConvertBandsTo8BitRGBOptions)
    (hbits : o.bits = 8 ∨ o.bits = 16 ∨ o.bits = 32) (hbands : 0 < o.bands)
    (hdvd : o.bands ∣ raw.length) :
    (convertStandardizedBandsTo8BitRGB raw o).map List.length =
      some (raw.length / o.bands * (if o.nodata.isSome then 4 else 3)) := by
  obtain ⟨q, hq⟩ := hdvd
  have hb0 : o.bands ≠ 0 := by omega
  have hdiv : raw.length / o.bands = q := by
    rw [hq, Nat.mul_div_cancel_left q hbands]
  by_cases h0 : raw.length = 0
  · rw [convertStandardizedBandsTo8BitRGB, if_pos h0]
    have hq0 : q = 0 := by
      rcases Nat.mul_eq_zero.mp (hq ▸ h0) with h | h
      · omega
      · exact h
    simp [hdiv, hq0, h0]
  · have hceil : ceilDiv raw.length o.bands = q := ceilDiv_of_dvd raw.length o.bands q hbands hq
    rw [convertStandardizedBandsTo8BitRGB, if_neg h0, if_neg hb0, if_pos hbits]
    cases hn : o.nodata with
    | none =>
        have houtLen : raw.length * 3 / o.bands = q * 3 := by
          rw [hq, show o.bands * q * 3 = o.bands * (q * 3) from by ring,
            Nat.mul_div_cancel_left _ hbands]
        simp only [hn, Option.isSome_none, hceil, houtLen, hdiv, Bool.false_eq_true, if_false]
        exact congrArg some (take_flatMap_range_length q 3 (q * 3) _ (fun i => rfl) (le_refl _))
    | some nd =>
        have houtLen : raw.length * 4 / o.bands = q * 4 := by
          rw [hq, show o.bands * q * 4 = o.bands * (q * 4) from by ring,
            Nat.mul_div_cancel_left _ hbands]
        simp only [hn, Option.isSome_some, hceil, houtLen, hdiv, if_true]
        exact congrArg some (take_flatMap_range_length q 4 (q * 4) _ (fun i => rfl) (le_refl _))

/-! ### Claims C1, C2, C3 -/

/-- C1 (amended): the single-band converter's output byte length equals
pixelCount×4 when a nodata sentinel is configured and pixelCount×3 otherwise,
for every input buffer and configuration; the multi-band converter, on a
supported bit width (8, 16 or 32), a positive band count, and an input buffer
whose length is a multiple of the band count, succeeds and likewise returns
pixelCount×4 bytes when a nodata sentinel is configured and pixelCount×3
otherwise (pixelCount = sample count / band count). -/
theorem c1_output_lengths (raw : List ℤ) (o : ConvertTo8BitRGBOptions)
    (mraw : List ℤ) (mo : ConvertBandsTo8BitRGBOptions)
    (hbits : mo.bits = 8 ∨ mo.bits = 16 ∨ mo.bits = 32) (hbands : 0 < mo.bands)
    (hdvd : mo.bands ∣ mraw.length) :
    (convertTo8BitRGB raw o).length = raw.length * (if o.nodata.isSome then 4 else 3) ∧
    (convertStandardizedBandsTo8BitRGB mraw mo).map List.length =
      some (mraw.length / mo.bands * (if mo.nodata.isSome then 4 else 3)) :=
  ⟨convertTo8BitRGB_length raw o, convertStandardizedBands_length mraw mo hbits hbands hdvd⟩

/-- A concrete single-band configuration with a nodata sentinel. -/
def c1SingleOpts : ConvertTo8BitRGBOptions :=
  { convert := fun x => x, nodata := some 5 }

/-- A concrete multi-band configuration with a nodata sentinel (two 3-band
8-bit pixels, direct RGB mapping). -/
def c1MultiOptsNodata : ConvertBandsTo8BitRGBOptions :=
  { bits := 8, bands := 3, bandMapping := ⟨0, 1, 2, 0, true⟩, nodata := some 0,
    convert := fun x => x }

/-- Witness for C1: two single-band samples with a sentinel give 8 bytes, and
two 3-band pixels with a sentinel give 8 bytes. -/
theorem c1_output_lengths_witness :
    (convertTo8BitRGB [5, 6] c1SingleOpts).length =
      [5, 6].length * (if c1SingleOpts.nodata.isSome then 4 else 3) ∧
    (convertStandardizedBandsTo8BitRGB [10, 20, 30, 40, 50, 60] c1MultiOptsNodata).map
        List.length =
      some ([10, 20, 30, 40, 50, 60].length / c1MultiOptsNodata.bands *
        (if c1MultiOptsNodata.nodata.isSome then 4 else 3)) :=
  c1_output_lengths [5, 6] c1SingleOpts [10, 20, 30, 40, 50, 60] c1MultiOptsNodata
    (Or.inl rfl) (by decide) (by decide)

/-- A concrete multi-band configuration with no nodata sentinel (one 3-band
8-bit pixel, direct RGB mapping). -/
def c1MultiOpts : ConvertBandsTo8BitRGBOptions :=
  { bits := 8, bands := 3, bandMapping := ⟨0, 1, 2, 0, true⟩, nodata := none,
    convert := fun x => x }

/-- C1 counterexample: with no nodata sentinel configured, the multi-band
converter emits 3 bytes for the single pixel [10, 20, 30], not the
pixelCount×4 bytes the claim asserts. -/
theorem c1_counterexample :
    ¬ (convertBandsTo8BitRGB [10, 20, 30] c1MultiOpts).map List.length =
      some ([10, 20, 30].length / c1MultiOpts.bands * 4) := by
  norm_num [convertBandsTo8BitRGB, convertStandardizedBandsTo8BitRGB, c1MultiOpts,
    ceilDiv, List.range_succ]

/-- A concrete multi-band RGB-direct configuration with nodata sentinel 0. -/
def c2Opts : ConvertBandsTo8BitRGBOptions :=
  { bits := 8, bands := 3, bandMapping := ⟨0, 1, 2, 0, true⟩, nodata := some 0,
    convert := fun x => x }

/-- C2 counterexample: with nodata sentinel 0 and pixel bands (0, 20, 30), the
red band equals the sentinel, so the claim's "any band equals nodata ⇒ alpha 0"
predicts alpha 0 — but the code produces alpha 255. -/
theorem c2_counterexample : ¬ (bandMapping [0, 20, 30] c2Opts).2.2.2 = 0 := by
  decide

/-- C2 (amended): in multi-band RGB-direct conversion with a nodata sentinel,
the output alpha is 0 exactly when all three mapped band values equal the
sentinel; if at least one of them differs (in particular when none equals it)
the alpha is 255. -/
theorem c2_rgb_alpha (multibands : List ℤ) (o : ConvertBandsTo8BitRGBOptions) (nd : ℤ)
    (hrgb : o.bandMapping.rgb = true) (hnd : o.nodata = some nd)
    (hr : o.bandMapping.red < multibands.length)
    (hg : o.bandMapping.green < multibands.length)
    (hb : o.bandMapping.blue < multibands.length) :
    (bandMapping multibands o).2.2.2 =
      if multibands.getD o.bandMapping.red 0 = nd ∧ multibands.getD o.bandMapping.green 0 = nd ∧
          multibands.getD o.bandMapping.blue 0 = nd then 0 else 255 := by
  have hR : multibands.get? o.bandMapping.red = some (multibands.getD o.bandMapping.red 0) := by
    rw [List.getD_eq_getElem?_getD, List.get?_eq_getElem?, List.getElem?_eq_getElem hr]
    rfl
  have hG : multibands.get? o.bandMapping.green = some (multibands.getD o.bandMapping.green 0) := by
    rw [List.getD_eq_getElem?_getD, List.get?_eq_getElem?, List.getElem?_eq_getElem hg]
    rfl
  have hB : multibands.get? o.bandMapping.blue = some (multibands.getD o.bandMapping.blue 0) := by
    rw [List.getD_eq_getElem?_getD, List.get?_eq_getElem?, List.getElem?_eq_getElem hb]
    rfl
  rw [bandMapping, hrgb]
  simp only [if_true, hR, hG, hB, hnd]
  by_cases h1 : multibands[o.bandMapping.red]?.getD 0 = nd <;>
    by_cases h2 : multibands[o.bandMapping.green]?.getD 0 = nd <;>
      by_cases h3 : multibands[o.bandMapping.blue]?.getD 0 = nd <;>
        simp [h1, h2, h3]

/-- Witness for C2: pixel (10, 20, 30) with sentinel 0 — no band equals the
sentinel and the alpha computed through the theorem is 255. -/
theorem c2_rgb_alpha_witness : (bandMapping [10, 20, 30] c2Opts).2.2.2 = 255 := by
  rw [c2_rgb_alpha [10, 20, 30] c2Opts 0 rfl rfl (by decide) (by decide) (by decide)]
  decide

/-- The single-band configuration of the C3 scenario: native range {0, 255},
nodata 255, grayscale gradient transformation. -/
def c3Options : SingleBandOptions :=
  { transformation := some GrayScaleTransformation, nodata := some 255, nativeRange := (0, 255) }

/-- C3 counterexample: for the input sample 255 (equal to nodata) the converter
does not force RGB to (0, 0, 0); it writes the gradient color at normalized
value 1, which for the grayscale gradient is (255, 255, 255). -/
theorem c3_counterexample :
    (convertSingleBandTo8BitRGB [255] c3Options).take 3 ≠ [0, 0, 0] := by
  norm_num [convertSingleBandTo8BitRGB, convertTo8BitRGB, c3Options, GrayScaleTransformation,
    TransformToGradientColorMap, retrieveColor, grayscaleStops, findSegment, interpChannel, qRound]
  decide

/-- C3 (amended): in single-band 8-bit conversion with nativeRange {0, 255} and
nodata 255, an input sample 255 produces output alpha 0 with RGB equal to the
configured gradient's color at normalized value 1 (not forced to (0, 0, 0)),
and an input sample 0 produces alpha 255 with RGB equal to the gradient's color
at normalized value 0; this holds for every transformation `t`. -/
theorem c3_singleband_nodata (t : ℚ → ℕ × ℕ × ℕ) :
    convertSingleBandTo8BitRGB [255, 0]
        { transformation := some t, nodata := some 255, nativeRange := (0, 255) } =
      [(t 1).1 % 256, (t 1).2.1 % 256, (t 1).2.2 % 256, 0,
       (t 0).1 % 256, (t 0).2.1 % 256, (t 0).2.2 % 256, 255] := by
  norm_num [convertSingleBandTo8BitRGB, convertTo8BitRGB]

/-! ### RetilingAdapter (src/RetiledGeoTIFFImage.ts) -/

/-- `calculateNewTileSize` (RetiledGeoTIFFImage constructor):
`min(512, 2^floor(log2(imageSize)))`.  For `imageSize = 0` JavaScript computes
`Math.pow(2, -Infinity) = 0`, hence the guard. -/
def calculateNewTileSize (imageSize : ℕ) : ℕ :=
  if imageSize = 0 then 0 else min 512 (2 ^ Nat.log2 imageSize)

/-- The synthesized square tile size: the minimum of the per-dimension sizes. -/
def retiledTileSize (width height : ℕ) : ℕ :=
  min (calculateNewTileSize width) (calculateNewTileSize height)

/-- The tile-size formula as the specification words it (for comparison with
the source-derived `retiledTileSize`). -/
def specTileSize (width height : ℕ) : ℕ :=
  min (2 ^ Nat.log2 (min width 512)) (2 ^ Nat.log2 (min height 512))

theorem calculateNewTileSize_eq (n : ℕ) (hn : 0 < n) :
    calculateNewTileSize n = 2 ^ Nat.log2 (min n 512) := by
  have hn' : n ≠ 0 := Nat.pos_iff_ne_zero.mp hn
  rw [calculateNewTileSize, if_neg hn']
  rcases le_or_lt 512 n with h | h
  · have hmin : min n 512 = 512 := min_eq_right h
    have h512 : Nat.log2 512 = 9 := by
      rw [Nat.log2_eq_log_two]
      exact Nat.log_eq_of_pow_le_of_lt_pow (by norm_num) (by norm_num)
    have hle : (9 : ℕ) ≤ Nat.log2 n := by
      rw [Nat.log2_eq_log_two]
      calc (9 : ℕ) = Nat.log 2 512 := by rw [← Nat.log2_eq_log_two, h512]
        _ ≤ Nat.log 2 n := Nat.log_mono_right h
    have : (512 : ℕ) ≤ 2 ^ Nat.log2 n := by
      calc (512 : ℕ) = 2 ^ 9 := by norm_num
        _ ≤ 2 ^ Nat.log2 n := Nat.pow_le_pow_right (by norm_num) hle
    rw [hmin, h512, min_eq_left this]
    norm_num
  · have hmin : min n 512 = n := min_eq_left (Nat.le_of_lt h)
    have hle : Nat.log2 n ≤ 8 := by
      rw [Nat.log2_eq_log_two]
      have h511 : Nat.log 2 511 = 8 :=
        Nat.log_eq_of_pow_le_of_lt_pow (by norm_num) (by norm_num)
      calc Nat.log 2 n ≤ Nat.log 2 511 := Nat.log_mono_right (by omega)
        _ = 8 := h511
    have : 2 ^ Nat.log2 n ≤ 512 := by
      calc 2 ^ Nat.log2 n ≤ 2 ^ 8 := Nat.pow_le_pow_right (by norm_num) hle
        _ ≤ 512 := by norm_num
    rw [hmin, min_eq_right this]

/-- C4: for every untiled raster level with positive width and height, the
synthesized square tile size equals
`min(2^floor(log2(min(width, 512))), 2^floor(log2(min(height, 512))))` —
the largest power of two ≤ 512 bounded by both dimensions. -/
theorem c4_tile_size (width height : ℕ) (hw : 0 < width) (hh : 0 < height) :
    retiledTileSize width height = specTileSize width height := by
  rw [retiledTileSize, specTileSize, calculateNewTileSize_eq width hw,
    calculateNewTileSize_eq height hh]

/-- Witness for C4 at width 600, height 300. -/
theorem c4_tile_size_witness :
    0 < 600 ∧ 0 < 300 ∧ retiledTileSize 600 300 = specTileSize 600 300 :=
  ⟨by decide, by decide, c4_tile_size 600 300 (by decide) (by decide)⟩

/-- A cached synthetic tile: the `{x, y, sample, data}` object stored in the
adapter's tile cache. -/
structure CachedTile where
  x : ℕ
  y : ℕ
  sample : ℕ
  data : List ℕ
deriving DecidableEq

/-- The windowed read request handed to the raster source (`readRasters`). -/
structure ReadRequest where
  window : ℕ × ℕ × ℕ × ℕ
  samples : List ℕ
  interleave : Bool
deriving DecidableEq

/-- `readRasters` either resolves with one interleaved buffer or with a list of
per-band buffers; `getTileOrStrip` keeps the first buffer in the latter case. -/
inductive ReadRasterResult where
  | single (data : List ℕ)
  | multi (data : List (List ℕ))

/-- The static per-level metadata the adapter reads from the wrapped image. -/
structure RetiledConfig where
  width : ℕ
  height : ℕ
  tileSize : ℕ
  samplesPerPixel : ℕ
  planarConfiguration : ℕ

def numTilesPerRow (c : RetiledConfig) : ℕ := ceilDiv c.width c.tileSize

def numTilesPerCol (c : RetiledConfig) : ℕ := ceilDiv c.height c.tileSize

/-- The synthetic tile index of `getTileOrStrip`: for chunky planar
configuration (1) `y·columns + x`, for planar configuration (2)
`sample·columns·rows + y·columns + x`; any other configuration leaves the
JavaScript `index` variable `undefined` (`none`). -/
def tileIndex (planarConfiguration numTilesPerRow numTilesPerCol x y sample : ℕ) : Option ℕ :=
  if planarConfiguration = 1 then some (y * numTilesPerRow + x)
  else if planarConfiguration = 2 then
    some (sample * numTilesPerRow * numTilesPerCol + y * numTilesPerRow + x)
  else none

/-- The tile cache: a JavaScript `Map` keyed by the (possibly `undefined`)
synthetic index. -/
abbrev TileCache := List (Option ℕ × CachedTile)

/-- The windowed read request built by `getTileOrStrip` for a cache miss. -/
def tileReadRequest (c : RetiledConfig) (x y sample : ℕ) : ReadRequest :=
  { window := (c.tileSize * x, c.tileSize * y, c.tileSize * x + c.tileSize,
               c.tileSize * y + c.tileSize),
    samples := if c.planarConfiguration = 1 then List.range c.samplesPerPixel else [sample],
    interleave := c.planarConfiguration == 1 }

/-- `getTileOrStrip` (src/RetiledGeoTIFFImage.ts) with the asynchronous
`readRasters` call of the wrapped image as an explicit oracle.  Returns the
produced tile (or the propagated read error), the resulting cache, and the
number of reads issued. -/
def getTileOrStrip {ε : Type} (c : RetiledConfig) (cache : TileCache)
    (read : ReadRequest → Except ε ReadRasterResult) (x y sample : ℕ) :
    Except ε CachedTile × TileCache × ℕ :=
  let index := tileIndex c.planarConfiguration (numTilesPerRow c) (numTilesPerCol c) x y sample
  match cache.lookup index with
  | some cachedTile => (Except.ok cachedTile, cache, 0)
  | none =>
    match read (tileReadRequest c x y sample) with
    | Except.error e => (Except.error e, cache, 1)
    | Except.ok dataResult =>
      let data := match dataResult with
        | ReadRasterResult.single d => d
        | ReadRasterResult.multi ds => ds.headD []
      let tile : CachedTile := { x := x, y := y, sample := sample, data := data.map (· % 256) }
      (Except.ok tile, (index, tile) :: cache, 1)

/-- C5: the synthetic tile index is `row·columns + col` for chunky planar
configuration and `sample·columns·rows + row·columns + col` for planar
configuration, and a lookup whose index is already cached returns the cached
entry with the cache untouched and no read issued. -/
theorem c5_index_and_cache {ε : Type} (c : RetiledConfig) (cache : TileCache)
    (read : ReadRequest → Except ε ReadRasterResult) (x y sample nR nC : ℕ) :
    (tileIndex 1 nR nC x y sample = some (y * nR + x)) ∧
    (tileIndex 2 nR nC x y sample = some (sample * nR * nC + y * nR + x)) ∧
    (∀ t : CachedTile,
      cache.lookup (tileIndex c.planarConfiguration (numTilesPerRow c) (numTilesPerCol c)
          x y sample) = some t →
      getTileOrStrip c cache read x y sample = (Except.ok t, cache, 0)) := by
  refine ⟨rfl, rfl, fun t ht => ?_⟩
  rw [getTileOrStrip, ht]

/-- A 4-column, 2-row chunky configuration (width 4, height 2, tile size 1). -/
def c5Config : RetiledConfig :=
  { width := 4, height := 2, tileSize := 1, samplesPerPixel := 1, planarConfiguration := 1 }

/-- A cache that already holds a tile under synthetic index 6. -/
def c5Cache : TileCache := [(some 6, { x := 2, y := 1, sample := 0, data := [42] })]

/-- Witness for C5: on the 4-column chunky grid, `getTile(2, 1, 0)` computes
index 6 = 1·4 + 2, and with that index cached the call returns the cached tile,
leaves the cache unchanged and issues zero reads — even though the read oracle
would fail if consulted. -/
theorem c5_index_and_cache_witness :
    getTileOrStrip c5Config c5Cache (fun _ => Except.error "read issued") 2 1 0 =
      (Except.ok { x := 2, y := 1, sample := 0, data := [42] }, c5Cache, 0) :=
  (c5_index_and_cache c5Config c5Cache (fun _ => Except.error "read issued") 2 1 0 4 2).2.2
    { x := 2, y := 1, sample := 0, data := [42] } (by decide)

/-- C6: when the windowed read for a cache miss fails, the error propagates to
the caller and the cache is unchanged (no entry is stored). -/
theorem c6_read_error {ε : Type} (c : RetiledConfig) (cache : TileCache)
    (read : ReadRequest → Except ε ReadRasterResult) (x y sample : ℕ) (e : ε)
    (hmiss : cache.lookup (tileIndex c.planarConfiguration (numTilesPerRow c) (numTilesPerCol c)
        x y sample) = none)
    (herr : read (tileReadRequest c x y sample) = Except.error e) :
    getTileOrStrip c cache read x y sample = (Except.error e, cache, 1) := by
  rw [getTileOrStrip, hmiss, herr]

/-- Witness for C6: an empty cache and an always-failing read oracle — the
error string comes back and the cache stays empty. -/
theorem c6_read_error_witness :
    getTileOrStrip c5Config [] (fun _ => Except.error "boom") 2 1 0 =
      (Except.error "boom", [], 1) :=
  c6_read_error c5Config [] (fun _ => Except.error "boom") 2 1 0 "boom" (by decide) rfl

/-! ### Short-buffer padding (src/utils.ts, `normalizeRawTypedArray`) -/

/-- `normalizeRawTypedArray` (src/utils.ts): a buffer at least as long as
expected is returned as is; a shorter one is copied into a fresh same-kind
typed array of the expected length whose tail is filled with the nodata
value. -/
def normalizeRawTypedArray (raw : List ℤ) (expectedLength : ℕ) (nodata : ℤ) : List ℤ :=
  if expectedLength ≤ raw.length then raw
  else raw ++ List.replicate (expectedLength - raw.length) nodata

/-- The pad value used by `getTileData`: the configured nodata sentinel, or 0
when none is given (the TypeScript default parameter, and the coercion JS
applies to a `null` fill value). -/
def padNodataValue (nodata : Option ℤ) : ℤ := nodata.getD 0

/-- C7: a raw buffer strictly shorter than the expected pixel count is padded
to exactly the expected length — the first `raw.length` entries are unchanged
and every remaining entry is the nodata sentinel (or 0 when no sentinel is
given). -/
theorem c7_pad_short_buffer (raw : List ℤ) (expectedLength : ℕ) (nodata : Option ℤ)
    (h : raw.length < expectedLength) :
    (normalizeRawTypedArray raw expectedLength (padNodataValue nodata)).length = expectedLength ∧
    (normalizeRawTypedArray raw expectedLength (padNodataValue nodata)).take raw.length = raw ∧
    (normalizeRawTypedArray raw expectedLength (padNodataValue nodata)).drop raw.length =
      List.replicate (expectedLength - raw.length) (padNodataValue nodata) := by
  have hn : ¬ expectedLength ≤ raw.length := by omega
  rw [normalizeRawTypedArray, if_neg hn]
  refine ⟨?_, ?_, ?_⟩
  · simp
    omega
  · rw [List.take_left]
  · rw [List.drop_left]

/-- Witness for C7: [7, 8] padded to length 5 with no sentinel. -/
theorem c7_pad_short_buffer_witness :
    (normalizeRawTypedArray [7, 8] 5 (padNodataValue none)).length = 5 ∧
    (normalizeRawTypedArray [7, 8] 5 (padNodataValue none)).take 2 = [7, 8] ∧
    (normalizeRawTypedArray [7, 8] 5 (padNodataValue none)).drop 2 =
      List.replicate 3 (padNodataValue none) :=
  c7_pad_short_buffer [7, 8] 5 none (by decide)

/-- C9: `normalizeRawTypedArray` returns its input list itself whenever the
input's length is at least the expected length. -/
theorem c9_long_buffer_unchanged (raw : List ℤ) (expectedLength : ℕ) (nodata : ℤ)
    (h : expectedLength ≤ raw.length) :
    normalizeRawTypedArray raw expectedLength nodata = raw := by
  rw [normalizeRawTypedArray, if_pos h]

/-- Witness for C9: a length-3 buffer with expected length 2 is returned
unchanged. -/
theorem c9_long_buffer_unchanged_witness :
    normalizeRawTypedArray [4, 5, 6] 2 9 = [4, 5, 6] :=
  c9_long_buffer_unchanged [4, 5, 6] 2 9 (by decide)

/-! ### Boundary clipping (src/GeoTiffTileSetModel.ts) -/

inductive PixelFormat where
  | RGB_888
  | RGBA_8888
  | USHORT
  | UINT_32
  | FLOAT_32
deriving DecidableEq

/-- `convertRGBToRGBA` (src/GeoTiffTileSetModel.ts): expand 3-byte pixels to
4-byte pixels with alpha 255. -/
def convertRGBToRGBA (raw : List ℕ) : List ℕ :=
  (List.range (raw.length / 3)).flatMap fun index =>
    [raw.getD (index * 3) 0, raw.getD (index * 3 + 1) 0, raw.getD (index * 3 + 2) 0, 255]

/-- The `invalid` test of `stripPixelsOutsideImageArea`: the pixel's absolute
column is past the image width, or its absolute row is below 0 (vertical-flip
mode) respectively past the image height (normal mode). -/
def stripInvalid (flipY : Bool) (tileOffsetX tileOffsetY : ℤ) (imageWidth imageHeight : ℕ)
    (px py : ℕ) : Bool :=
  decide ((imageWidth : ℤ) ≤ tileOffsetX + px) ||
    (if flipY then decide (tileOffsetY + (py : ℤ) < 0)
     else decide ((imageHeight : ℤ) ≤ tileOffsetY + py))

/-- Elementwise map that passes the element's index, starting at `start`
(models the in-place `data.fill(0, index*4, index*4+4)` loop, whose cleared
byte ranges are disjoint across pixels). -/
def mapWithIndex {α : Type} (f : ℕ → α → α) : ℕ → List α → List α
  | _, [] => []
  | start, b :: rest => f start b :: mapWithIndex f (start + 1) rest

theorem mapWithIndex_get? {α : Type} (f : ℕ → α → α) (start j : ℕ) (l : List α) :
    (mapWithIndex f start l).get? j = (l.get? j).map (f (start + j)) := by
  induction l generalizing start j with
  | nil => simp [mapWithIndex]
  | cons a t ih =>
      cases j with
      | zero => simp [mapWithIndex]
      | succ k =>
          have harg : start + 1 + k = start + (k + 1) := by omega
          have h2 := ih (start + 1) k
          rw [harg] at h2
          simpa [mapWithIndex] using h2

/-- `stripPixelsOutsideImageArea` (src/GeoTiffTileSetModel.ts): only tiles on
the last column or last row of the level's grid are touched; an RGB_888 buffer
is first promoted to RGBA_8888, then every pixel of the tile whose absolute
raster coordinate is invalid has its 4 bytes forced to 0. -/
def stripPixelsOutsideImageArea (data : List ℕ) (pixelFormat : PixelFormat)
    (tileX tileY tileColumnCount tileRowCount : ℕ)
    (tileOffsetX tileOffsetY : ℤ) (tileWidth tileHeight imageWidth imageHeight : ℕ)
    (flipY : Bool) : List ℕ × PixelFormat :=
  if tileX = tileColumnCount - 1 ∨ tileY = tileRowCount - 1 then
    let promoted :=
      if pixelFormat = PixelFormat.RGB_888 then (convertRGBToRGBA data, PixelFormat.RGBA_8888)
      else (data, pixelFormat)
    let cleared := mapWithIndex (fun i b =>
      if i / 4 < tileWidth * tileHeight ∧
          stripInvalid flipY tileOffsetX tileOffsetY imageWidth imageHeight
            (i / 4 % tileWidth) (i / 4 / tileWidth) = true then 0 else b) 0 promoted.1
    (cleared, promoted.2)
  else (data, pixelFormat)

theorem stripInvalid_iff (flipY : Bool) (tw th w h tileX tileY px py : ℕ) (hpy : py < th) :
    stripInvalid flipY ((tw : ℤ) * tileX)
        (if flipY then (h : ℤ) - th * (tileY + 1) else (th : ℤ) * tileY) w h px py = true ↔
      ¬ (0 ≤ (tw : ℤ) * tileX + px ∧ (tw : ℤ) * tileX + px < w ∧
          0 ≤ (if flipY then (h : ℤ) - th * (tileY + 1) else (th : ℤ) * tileY) + py ∧
          (if flipY then (h : ℤ) - th * (tileY + 1) else (th : ℤ) * tileY) + py < h) := by
  have hX0 : 0 ≤ (tw : ℤ) * tileX + px := by positivity
  have hpy' : (py : ℤ) < th := by exact_mod_cast hpy
  cases flipY with
  | false =>
      have hB : 0 ≤ (th : ℤ) * tileY := by positivity
      simp only [stripInvalid, if_neg, Bool.or_eq_true, decide_eq_true_eq, Bool.false_eq_true,
        if_false]
      omega
  | true =>
      have hC : (th : ℤ) ≤ (th : ℤ) * (tileY + 1) := by
        have h1 : (1 : ℤ) ≤ (tileY : ℤ) + 1 := by omega
        nlinarith [Int.natCast_nonneg th]
      simp only [stripInvalid, Bool.or_eq_true, decide_eq_true_eq, if_true]
      omega

/-- C8: boundary clipping touches a tile only when it lies on the last column
or last row of its level's grid — interior tiles come back entirely unchanged —
and on such a tile (already RGBA) a pixel's 4 bytes are forced to 0 exactly
when its absolute raster coordinate, derived from the tile offsets of
`getTileData` (with the vertical-flip variant when the reference is plain
pixel space), falls outside `[0, width) × [0, height)`; pixels inside are left
unchanged by this step. -/
theorem c8_strip_pixels (data : List ℕ) (pf : PixelFormat)
    (tileX tileY colCount rowCount : ℕ) (tileOffsetX tileOffsetY : ℤ)
    (tw th w h : ℕ) (flipY : Bool) :
    (tileX ≠ colCount - 1 → tileY ≠ rowCount - 1 →
      stripPixelsOutsideImageArea data pf tileX tileY colCount rowCount
        tileOffsetX tileOffsetY tw th w h flipY = (data, pf)) ∧
    (pf = PixelFormat.RGBA_8888 →
     tileOffsetX = (tw : ℤ) * tileX →
     tileOffsetY = (if flipY then (h : ℤ) - th * (tileY + 1) else (th : ℤ) * tileY) →
     (tileX = colCount - 1 ∨ tileY = rowCount - 1) →
     ∀ px py k, px < tw → py < th → k < 4 →
       (¬ (0 ≤ tileOffsetX + px ∧ tileOffsetX + px < w ∧
            0 ≤ tileOffsetY + py ∧ tileOffsetY + py < h) →
         (stripPixelsOutsideImageArea data pf tileX tileY colCount rowCount
             tileOffsetX tileOffsetY tw th w h flipY).1.get? (4 * (py * tw + px) + k) =
           (data.get? (4 * (py * tw + px) + k)).map (fun _ => 0)) ∧
       ((0 ≤ tileOffsetX + px ∧ tileOffsetX + px < w ∧
            0 ≤ tileOffsetY + py ∧ tileOffsetY + py < h) →
         (stripPixelsOutsideImageArea data pf tileX tileY colCount rowCount
             tileOffsetX tileOffsetY tw th w h flipY).1.get? (4 * (py * tw + px) + k) =
           data.get? (4 * (py * tw + px) + k))) := by
  constructor
  · intro h1 h2
    rw [stripPixelsOutsideImageArea, if_neg (by tauto)]
  · intro hpf hox hoy hedge px py k hpx hpy hk
    subst hpf
    subst hox
    subst hoy
    have htw : 0 < tw := by omega
    have hip : (4 * (py * tw + px) + k) / 4 = py * tw + px := by omega
    have hpm : (py * tw + px) % tw = px := by
      rw [Nat.mul_comm py tw, Nat.mul_add_mod, Nat.mod_eq_of_lt hpx]
    have hpd : (py * tw + px) / tw = py := by
      rw [Nat.mul_comm py tw, Nat.mul_add_div htw, Nat.div_eq_of_lt hpx, Nat.add_zero]
    have hplt : py * tw + px < tw * th := by
      have step1 : py * tw + px < (py + 1) * tw := by
        have : (py + 1) * tw = py * tw + tw := by ring
        omega
      have step2 : (py + 1) * tw ≤ th * tw := Nat.mul_le_mul_right tw hpy
      have : th * tw = tw * th := Nat.mul_comm th tw
      omega
    rw [stripPixelsOutsideImageArea, if_pos hedge]
    simp only [if_neg (by decide : ¬ (PixelFormat.RGBA_8888 = PixelFormat.RGB_888))]
    rw [mapWithIndex_get?, Nat.zero_add, hip, hpm, hpd]
    have hinv := stripInvalid_iff flipY tw th w h tileX tileY px py hpy
    constructor
    · intro houtside
      have hi : stripInvalid flipY ((tw : ℤ) * tileX)
          (if flipY then (h : ℤ) - th * (tileY + 1) else (th : ℤ) * tileY) w h px py = true :=
        hinv.mpr houtside
      cases hd : data.get? (4 * (py * tw + px) + k) <;>
        simp [hd, hi, hplt]
    · intro hinside
      have hi : ¬ stripInvalid flipY ((tw : ℤ) * tileX)
          (if flipY then (h : ℤ) - th * (tileY + 1) else (th : ℤ) * tileY) w h px py = true := by
        intro hc
        exact hinv.mp hc hinside
      cases hd : data.get? (4 * (py * tw + px) + k) <;>
        simp [hd, hi]

/-- Witness for C8: a 2×2 RGBA tile (all bytes 9) on the last column of a
2-column grid, image 3 pixels wide: the pixel at local column 1 (absolute
column 3 ≥ 3) is cleared, the pixel at local column 0 (absolute column 2) is
unchanged. -/
theorem c8_strip_pixels_witness :
    (stripPixelsOutsideImageArea (List.replicate 16 9) PixelFormat.RGBA_8888
        1 0 2 5 2 0 2 2 3 2 false).1.get? 4 = some 0 ∧
    (stripPixelsOutsideImageArea (List.replicate 16 9) PixelFormat.RGBA_8888
        1 0 2 5 2 0 2 2 3 2 false).1.get? 0 = some 9 := by
  have H := (c8_strip_pixels (List.replicate 16 9) PixelFormat.RGBA_8888
      1 0 2 5 2 0 2 2 3 2 false).2 rfl (by decide) (by decide) (Or.inl rfl)
  constructor
  · have h1 := (H 1 0 0 (by decide) (by decide) (by decide)).1 (by decide)
    exact h1.trans (by decide)
  · have h2 := (H 0 0 0 (by decide) (by decide) (by decide)).2 (by decide)
    exact h2.trans (by decide)

/-! ### Model state and the `setNodata` mutator (src/GeoTiffTileSetModel.ts) -/

/-- `PixelMeaningEnum` (src/interfaces.ts). -/
inductive PixelMeaningEnum where
  | Grayscale8
  | Grayscale16
  | Grayscale32
  | RGB
  | RGBA
  | RGB96
  | Multiband
  | Unknown

/-- The mutable state of a `GeoTiffTileSetModel` instance: the private fields
of the class plus the tile-matrix structure owned by the `RasterTileSetModel`
base class (opaque here) and a counter of `invalidate()` calls (the repaint
trigger handled by the host framework). -/
structure GeoTiffTileSetModelState where
  images : List ℕ
  maskImages : List ℕ
  pixelFormat : Option PixelFormat
  nodata : Option ℚ
  bands : Option (List ℕ)
  transformation : Option (ℚ → ℕ × ℕ × ℕ)
  bandsNumber : ℕ
  pixelFormatMeaning : PixelMeaningEnum
  bandMapping : BandMapping
  gradient : List (ℚ × (ℕ × ℕ × ℕ))
  tileMatrix : List ℕ
  invalidations : ℕ

/-- `invalidate()` of the host base class: triggers a repaint; modelled as a
counter bump. -/
def invalidateModel (s : GeoTiffTileSetModelState) : GeoTiffTileSetModelState :=
  { s with invalidations := s.invalidations + 1 }

/-- `setNodata` (src/GeoTiffTileSetModel.ts): store the new nodata value and,
unless suppressed, invalidate. -/
def setNodata (s : GeoTiffTileSetModelState) (nodata : ℚ) (invalidate : Bool) :
    GeoTiffTileSetModelState :=
  let s1 := { s with nodata := some nodata }
  if invalidate then invalidateModel s1 else s1

/-- C10: `setNodata` changes only the stored nodata value (and optionally
triggers invalidation); gradient, band mapping, pixel format, image list,
mask-image list, bands, transformation, band count, pixel meaning and the
tile-matrix structure are all unchanged. -/
theorem c10_setNodata_frame (s : GeoTiffTileSetModelState) (nd : ℚ) (invalidate : Bool) :
    (setNodata s nd invalidate).nodata = some nd ∧
    (setNodata s nd invalidate).gradient = s.gradient ∧
    (setNodata s nd invalidate).bandMapping = s.bandMapping ∧
    (setNodata s nd invalidate).pixelFormat = s.pixelFormat ∧
    (setNodata s nd invalidate).images = s.images ∧
    (setNodata s nd invalidate).maskImages = s.maskImages ∧
    (setNodata s nd invalidate).bands = s.bands ∧
    (setNodata s nd invalidate).transformation = s.transformation ∧
    (setNodata s nd invalidate).bandsNumber = s.bandsNumber ∧
    (setNodata s nd invalidate).pixelFormatMeaning = s.pixelFormatMeaning ∧
    (setNodata s nd invalidate).tileMatrix = s.tileMatrix ∧
    (setNodata s nd invalidate).invalidations =
      s.invalidations + (if invalidate then 1 else 0) := by
  cases invalidate <;> simp [setNodata, invalidateModel]
